import Mathlib

/-!
Shallow embedding of the interactive behavior of the studio99_app repository
(React Native / Expo front-end): the video-feed active-item tracking, the
onboarding carousel, the profile-setup form handlers, the user-type selection
cards, the simulated OAuth login and the reusable loading button.

Each definition is translated from the corresponding source file; doc comments
name the file and symbol it embeds.
-/

/-! ## Video feed (src/components/VideoWrapper.tsx, src/app/(authenticated)/(creator)/(tabs)/home.tsx) -/

/-- Command issued to a row's video player. -/
inductive PlayerCmd
  | play
  | pause
deriving DecidableEq, Repr

/-- A video item of the feed: `{ id, source, metadata: { orientation } }`
(the source URI is irrelevant to control flow and omitted). -/
structure VideoItem where
  id : String
  orientation : String
deriving DecidableEq, Repr

/-- The static `videos` array of `home.tsx` (ids and orientations). -/
def homeVideos : List VideoItem :=
  [⟨"1", "landscape"⟩, ⟨"2", "portrait"⟩, ⟨"3", "landscape"⟩,
   ⟨"4", "portrait"⟩, ⟨"5", "landscape"⟩, ⟨"6", "portrait"⟩,
   ⟨"7", "portrait"⟩]

/-- `VideoWrapper.tsx` line 17: `const isActive = index === currentIndex;`. -/
def isActive (index currentIndex : Int) : Bool :=
  index = currentIndex

/-- `VideoWrapper.tsx` lines 24-30: the effect plays the player when
`isActive` and pauses it otherwise. -/
def videoWrapperEffect (index currentIndex : Int) : PlayerCmd :=
  if isActive index currentIndex then .play else .pause

/-- One entry of the framework's viewability report (`viewableItems[i]`);
only the `index` field is read by the code. -/
structure ViewToken where
  index : Int
deriving DecidableEq, Repr

/-- `home.tsx` lines 50-54: `onViewableItemsChanged` sets the active index to
`viewableItems[0].index` when the list is non-empty and otherwise leaves the
state untouched. Returns the new `currentIndex` state. -/
def onViewableItemsChanged (viewableItems : List ViewToken) (currentIndex : Int) : Int :=
  match viewableItems with
  | [] => currentIndex
  | v :: _ => v.index

/-! ## Claims C1, C2 -/

/-- C1: in the video feed, for every list of video items and every active
index, the row whose index equals the active index plays its player and every
row whose index differs pauses its player; the decision is the equality check
`index === currentIndex` per row. -/
theorem videoFeed_play_iff_active (videos : List VideoItem) (current : Int)
    (i : Nat) (h : i < videos.length) :
    (videoWrapperEffect i current = .play ↔ (i : Int) = current) ∧
    (videoWrapperEffect i current = .pause ↔ (i : Int) ≠ current) ∧
    videoWrapperEffect i current =
      (if isActive i current then .play else .pause) := by
  refine ⟨?_, ?_, rfl⟩ <;> simp [videoWrapperEffect, isActive]

/-- Witness for C1: on the feed's own 7-item list with active index 2, row 2
plays. -/
theorem videoFeed_play_iff_active_witness :
    (2 : Nat) < homeVideos.length ∧ videoWrapperEffect 2 2 = .play := by
  refine ⟨by decide, ?_⟩
  exact (videoFeed_play_iff_active homeVideos 2 2 (by decide)).1.mpr (by decide)

/-- C2: every invocation of the viewability callback with a non-empty
visible-items list sets the active index to the index of the first element,
and an invocation with an empty list leaves the active index unchanged. -/
theorem viewability_first_or_unchanged :
    ∀ (v : ViewToken) (rest : List ViewToken) (s : Int),
      onViewableItemsChanged (v :: rest) s = v.index ∧
      onViewableItemsChanged [] s = s := by
  intro v rest s
  exact ⟨rfl, rfl⟩

/-! ## Profile-setup forms
(src/app/(authenticated)/(student)/profile-setup.tsx,
 src/app/(authenticated)/(lecturer)/profile-setup.tsx,
 src/app/(authenticated)/(creator)/creator-profile-setup.tsx) -/

/-- The seven field states of the student profile-setup screen, each a
`useState('')` string. -/
structure StudentForm where
  firstName : String
  lastName : String
  email : String
  university : String
  department : String
  course : String
  level : String
deriving DecidableEq, Repr

/-- The student screen's `errors` record: the keys written by `handleChange`. -/
structure StudentErrors where
  firstName : String
  lastName : String
  email : String
  university : String
  department : String
  course : String
  level : String
deriving DecidableEq, Repr

/-- Full local state of the student profile-setup screen. -/
structure StudentState where
  form : StudentForm
  errors : StudentErrors
deriving DecidableEq, Repr

/-- Initial student screen state: every `useState('')` and an empty errors
object (all keys empty). -/
def initStudentState : StudentState :=
  ⟨⟨"", "", "", "", "", "", ""⟩, ⟨"", "", "", "", "", "", ""⟩⟩

/-- Student `handleChange(text, field)` (profile-setup.tsx lines 22-33):
sets every one of the seven field states to `text` (the second parameter
`field` is never read), then sets every error key to the empty string. -/
def studentHandleChange (text field : String) (s : StudentState) : StudentState :=
  { form := ⟨text, text, text, text, text, text, text⟩
    errors := ⟨"", "", "", "", "", "", ""⟩ }

/-- The `onChangeText` wired to a student input labelled `fieldName`:
`handleChange.bind(null, fieldName)` applied to the typed text calls
`handleChange(fieldName, typed)`. -/
def studentFieldOnChangeText (fieldName typed : String) (s : StudentState) : StudentState :=
  studentHandleChange fieldName typed s

/-- The six field states of the lecturer profile-setup screen. -/
structure LecturerForm where
  firstName : String
  lastName : String
  email : String
  university : String
  faculty : String
  course : String
deriving DecidableEq, Repr

/-- The lecturer screen's `errors` record. -/
structure LecturerErrors where
  firstName : String
  lastName : String
  email : String
  university : String
  faculty : String
  course : String
deriving DecidableEq, Repr

/-- Full local state of the lecturer profile-setup screen. -/
structure LecturerState where
  form : LecturerForm
  errors : LecturerErrors
deriving DecidableEq, Repr

/-- Initial lecturer screen state. -/
def initLecturerState : LecturerState :=
  ⟨⟨"", "", "", "", "", ""⟩, ⟨"", "", "", "", "", ""⟩⟩

/-- Lecturer `handleChange(text, field)` (profile-setup.tsx lines 21-31):
sets every one of the six field states to `text` (the second parameter is
never read), then clears every error key. -/
def lecturerHandleChange (text field : String) (s : LecturerState) : LecturerState :=
  { form := ⟨text, text, text, text, text, text⟩
    errors := ⟨"", "", "", "", "", ""⟩ }

/-- The `onChangeText` wired to a lecturer input labelled `fieldName`:
`handleChange.bind(null, fieldName)` applied to the typed text. -/
def lecturerFieldOnChangeText (fieldName typed : String) (s : LecturerState) : LecturerState :=
  lecturerHandleChange fieldName typed s

/-- The three field states of the creator profile-setup screen. -/
structure CreatorForm where
  username : String
  displayName : String
  bio : String
deriving DecidableEq, Repr

/-- Creator `handleChange(field, text)` (creator-profile-setup.tsx lines
22-34): updates only the state named by `field` (error clearing omitted here;
it touches no field state). -/
def creatorHandleChange (field text : String) (s : CreatorForm) : CreatorForm :=
  if field = "username" then { s with username := text }
  else if field = "displayName" then { s with displayName := text }
  else if field = "bio" then { s with bio := text }
  else s

/-! ## Claims C3, C4, C5 -/

/-- C3 (failing-input evaluation): on the student profile-setup screen,
typing "J" into the input labelled 'firstName' does not leave the unrelated
`lastName`, `email` and `university` states unchanged — each becomes
"firstName" — contradicting the claim that typing into one field updates only
that field's local state. (The creator screen's per-field handler
`creatorHandleChange` does satisfy the claim; the student and lecturer
screens violate it.) -/
theorem student_typing_clobbers_unrelated_fields :
    (studentFieldOnChangeText "firstName" "J" initStudentState).form.lastName
        = "firstName" ∧
    (studentFieldOnChangeText "firstName" "J" initStudentState).form.email
        = "firstName" ∧
    (studentFieldOnChangeText "firstName" "J" initStudentState).form.university
        = "firstName" ∧
    initStudentState.form.lastName = "" ∧
    (creatorHandleChange "username" "J" ⟨"", "", ""⟩).displayName = "" := by
  refine ⟨rfl, rfl, rfl, rfl, ?_⟩
  decide

/-- C4: in the student and lecturer profile-setup screens, one change event
makes the shared `handleChange` set every declared field state (first name,
last name, email, university, department/faculty, course, and level where
present) to the same single value. -/
theorem handleChange_sets_every_field :
    ∀ (text field : String) (s : StudentState) (t : LecturerState),
      (studentHandleChange text field s).form.firstName = text ∧
      (studentHandleChange text field s).form.lastName = text ∧
      (studentHandleChange text field s).form.email = text ∧
      (studentHandleChange text field s).form.university = text ∧
      (studentHandleChange text field s).form.department = text ∧
      (studentHandleChange text field s).form.course = text ∧
      (studentHandleChange text field s).form.level = text ∧
      (lecturerHandleChange text field t).form.firstName = text ∧
      (lecturerHandleChange text field t).form.lastName = text ∧
      (lecturerHandleChange text field t).form.email = text ∧
      (lecturerHandleChange text field t).form.university = text ∧
      (lecturerHandleChange text field t).form.faculty = text ∧
      (lecturerHandleChange text field t).form.course = text := by
  intro text field s t
  exact ⟨rfl, rfl, rfl, rfl, rfl, rfl, rfl, rfl, rfl, rfl, rfl, rfl, rfl⟩

/-- C5: due to `handleChange.bind(null, fieldName)`, the value stored into
every student/lecturer field state is the bound field-name string, and the
typed text is discarded: the resulting state is independent of what was
typed. -/
theorem bound_handler_stores_field_name :
    ∀ (fieldName typed typed2 : String) (s : StudentState) (t : LecturerState),
      (studentFieldOnChangeText fieldName typed s).form.firstName = fieldName ∧
      (studentFieldOnChangeText fieldName typed s).form.lastName = fieldName ∧
      (studentFieldOnChangeText fieldName typed s).form.email = fieldName ∧
      (studentFieldOnChangeText fieldName typed s).form.university = fieldName ∧
      (studentFieldOnChangeText fieldName typed s).form.department = fieldName ∧
      (studentFieldOnChangeText fieldName typed s).form.course = fieldName ∧
      (studentFieldOnChangeText fieldName typed s).form.level = fieldName ∧
      studentFieldOnChangeText fieldName typed s
        = studentFieldOnChangeText fieldName typed2 s ∧
      (lecturerFieldOnChangeText fieldName typed t).form.firstName = fieldName ∧
      (lecturerFieldOnChangeText fieldName typed t).form.course = fieldName ∧
      lecturerFieldOnChangeText fieldName typed t
        = lecturerFieldOnChangeText fieldName typed2 t := by
  intro fieldName typed typed2 s t
  exact ⟨rfl, rfl, rfl, rfl, rfl, rfl, rfl, rfl, rfl, rfl, rfl⟩

/-! ## Onboarding carousel
(src/unnamed/part_010 `Onboarding`, src/app/onboarding/onboard.tsx
`Onboarding`, src/components/FirstSlide.tsx and the other slide pages) -/

/-- A navigation/scroll effect emitted by the onboarding `handleNext`. -/
inductive NavEffect
  | scrollToIndex (i : Nat)
  | replaceRoute (path : String)
deriving DecidableEq, Repr

/-- `data = [Page1, Page2, Page3]`: the fixed 3-element slide list. -/
def onboardingSlideCount : Nat := 3

/-- `handleNext` of the onboarding component in src/unnamed/part_010
(lines 25-35): on `currentIndex < data.length - 1` it scrolls to
`currentIndex + 1`; otherwise it calls `router.replace('/auth')`. -/
def handleNextPart010 (currentIndex : Nat) : List NavEffect :=
  if currentIndex < onboardingSlideCount - 1 then
    [.scrollToIndex (currentIndex + 1)]
  else
    [.replaceRoute "/auth"]

/-- `handleNext` of src/app/onboarding/onboard.tsx (lines 23-30): the same
guard, but there is no else branch — on the final slide nothing happens. -/
def handleNextOnboard (currentIndex : Nat) : List NavEffect :=
  if currentIndex < onboardingSlideCount - 1 then
    [.scrollToIndex (currentIndex + 1)]
  else
    []

/-- The `currentIndex` prop handed to the slide at `slideIdx` by part_010's
`renderItem`: `currentIndex === index ? currentIndex : -1`. -/
def slideReceivedProp (slideIdx current : Nat) : Int :=
  if current = slideIdx then (current : Int) else -1

/-- Number of entrance-animation runs slide `slideIdx` performs when the
screen's page index moves from `oldCurrent` to `newCurrent`: its
`useEffect([currentIndex])` re-fires exactly when the received prop changed,
and its body starts the animation exactly when the received prop equals the
slide's own fixed index (`currentIndex === 0` in FirstSlide.tsx,
`=== 1` and `=== 2` in the second and third slide pages). -/
def slideEntranceRuns (slideIdx oldCurrent newCurrent : Nat) : Nat :=
  if slideReceivedProp slideIdx oldCurrent ≠ slideReceivedProp slideIdx newCurrent
      ∧ slideReceivedProp slideIdx newCurrent = (slideIdx : Int) then 1 else 0

/-! ## Claims C6, C7 -/

/-- C6 counterexample: in the onboarding variant at
src/app/onboarding/onboard.tsx, pressing Next with the page index at the
final slide (index 2) emits no effect at all — in particular it does not
navigate to the authentication route — refuting the claim that the press
navigates to the authentication screen exactly once. -/
theorem onboard_final_next_does_not_navigate :
    handleNextOnboard 2 = [] ∧
    NavEffect.replaceRoute "/auth" ∉ handleNextOnboard 2 := by
  decide

/-- C6 amended: pressing Next on a non-final slide scrolls to
`currentIndex + 1` and does not navigate, in both onboarding variants; on the
final slide (index 2) the part_010 variant replaces the route with '/auth'
exactly once, while the onboard.tsx variant performs no action. -/
theorem handleNext_scroll_or_navigate :
    ∀ i, i < onboardingSlideCount →
      (i < onboardingSlideCount - 1 →
        handleNextPart010 i = [.scrollToIndex (i + 1)] ∧
        handleNextOnboard i = [.scrollToIndex (i + 1)]) ∧
      (i = onboardingSlideCount - 1 →
        handleNextPart010 i = [.replaceRoute "/auth"] ∧
        handleNextOnboard i = []) := by
  decide

/-- Witness for C6: at the final index 2, part_010 navigates once and
onboard.tsx does nothing; at index 0 both scroll to index 1. -/
theorem handleNext_scroll_or_navigate_witness :
    (handleNextPart010 2 = [.replaceRoute "/auth"] ∧ handleNextOnboard 2 = []) ∧
    (handleNextPart010 0 = [.scrollToIndex 1] ∧ handleNextOnboard 0 = [.scrollToIndex 1]) :=
  ⟨(handleNext_scroll_or_navigate 2 (by decide)).2 (by decide),
   (handleNext_scroll_or_navigate 0 (by decide)).1 (by decide)⟩

/-- C7: advancing the carousel's page index from `i` to `i + 1` triggers
exactly one entrance-animation run for slide `i + 1` and none for any other
slide: slide `j` runs once if `j = i + 1` and zero times otherwise. -/
theorem advance_triggers_one_entrance_animation :
    ∀ i, i < onboardingSlideCount - 1 →
      ∀ j, j < onboardingSlideCount →
        slideEntranceRuns j i (i + 1) = if j = i + 1 then 1 else 0 := by
  decide

/-- Witness for C7: advancing from 0 to 1 runs slide 1's entrance animation
once and slide 0's not at all. -/
theorem advance_triggers_one_entrance_animation_witness :
    slideEntranceRuns 1 0 1 = 1 ∧ slideEntranceRuns 0 0 1 = 0 := by
  have h1 := advance_triggers_one_entrance_animation 0 (by decide) 1 (by decide)
  have h0 := advance_triggers_one_entrance_animation 0 (by decide) 0 (by decide)
  simp at h1 h0
  exact ⟨h1, h0⟩

/-! ## User-type selection screen
(src/unnamed/part_003 `UserTypeCard`, usertype screen in the lecturer
profile-setup source file: `Page` with three `UserTypeCard`s) -/

/-- `type UserType = 'student' | 'lecturer' | 'entertainment' | null` — the
non-null alternatives; the screen state holds an `Option UserType`. -/
inductive UserType
  | student
  | lecturer
  | entertainment
deriving DecidableEq, Repr, Fintype

/-- State of the user-type screen: the parent's `selectedType` plus each
`UserTypeCard`'s local `selected` state (`useState(isSelected)`). -/
structure UserTypeScreen where
  selectedType : Option UserType
  cardStudent : Bool
  cardLecturer : Bool
  cardEntertainment : Bool
deriving DecidableEq, Repr, Fintype

/-- Initial screen state: `useState<UserType>(null)` and each card mounted
with `isSelected = false`. -/
def initUserTypeScreen : UserTypeScreen :=
  ⟨none, false, false, false⟩

/-- The `isSelected` prop the screen computes for card `k`:
`selectedType === 'student'` etc. -/
def isSelectedProp (st : Option UserType) (k : UserType) : Bool :=
  st = some k

/-- The local highlighted state of card `k`. -/
def cardLocal (s : UserTypeScreen) (k : UserType) : Bool :=
  match k with
  | .student => s.cardStudent
  | .lecturer => s.cardLecturer
  | .entertainment => s.cardEntertainment

/-- Replace card `k`'s local state. -/
def setCardLocal (s : UserTypeScreen) (k : UserType) (b : Bool) : UserTypeScreen :=
  match k with
  | .student => { s with cardStudent := b }
  | .lecturer => { s with cardLecturer := b }
  | .entertainment => { s with cardEntertainment := b }

/-- `UserTypeCard`'s `useEffect([isSelected])` (part_003 lines 21-23):
when the card's `isSelected` prop changed across a render it re-syncs the
local state to the prop; otherwise the local state is kept. -/
def syncCard (oldSt newSt : Option UserType) (k : UserType) (cur : Bool) : Bool :=
  if isSelectedProp oldSt k ≠ isSelectedProp newSt k then
    isSelectedProp newSt k
  else
    cur

/-- Pressing card `k` (part_003 `handlePress`, lines 25-28, composed with the
screen's `onPress` which runs `setSelectedType(k)`): the card toggles its own
local state, the parent selection becomes `some k`, and then every card's
sync effect runs against the changed `isSelected` props. -/
def pressUserTypeCard (k : UserType) (s : UserTypeScreen) : UserTypeScreen :=
  let toggled := setCardLocal s k (! cardLocal s k)
  let newSt : Option UserType := some k
  { selectedType := newSt
    cardStudent := syncCard s.selectedType newSt .student (cardLocal toggled .student)
    cardLecturer := syncCard s.selectedType newSt .lecturer (cardLocal toggled .lecturer)
    cardEntertainment :=
      syncCard s.selectedType newSt .entertainment (cardLocal toggled .entertainment) }

/-- Invariant of the user-type screen: a card is highlighted only when the
parent selection points at it. It holds initially and is preserved by every
press. -/
def userTypeInv (s : UserTypeScreen) : Prop :=
  (s.cardStudent = true → s.selectedType = some .student) ∧
  (s.cardLecturer = true → s.selectedType = some .lecturer) ∧
  (s.cardEntertainment = true → s.selectedType = some .entertainment)

instance (s : UserTypeScreen) : Decidable (userTypeInv s) := by
  unfold userTypeInv
  infer_instance

/-! ## Claim C8 -/

/-- C8 counterexample: from the initial screen, press the Student card and
then the Lecturer card. The Student card is highlighted after the first
press, yet after the Lecturer press — without the Student card's own
`onPress` ever firing again — its highlighted state has changed to false,
refuting the claim that sibling highlight state remains unchanged until the
sibling's own `onPress` fires. -/
theorem userTypeCard_sibling_changes_without_press :
    cardLocal (pressUserTypeCard .student initUserTypeScreen) .student = true ∧
    cardLocal (pressUserTypeCard .lecturer
        (pressUserTypeCard .student initUserTypeScreen)) .student = false := by
  decide

/-- C8 amended: in every screen state satisfying the invariant (which holds
initially and is preserved by presses), pressing a card toggles that card's
own highlighted state, and a sibling card's highlighted state is unchanged —
unless that sibling was the currently selected card, in which case the
parent's selection change re-syncs it to unhighlighted. -/
theorem userTypeCard_press_toggles_self_frames_siblings :
    ∀ (s : UserTypeScreen) (k : UserType), userTypeInv s →
      (cardLocal (pressUserTypeCard k s) k = ! cardLocal s k) ∧
      (∀ j, j ≠ k →
        cardLocal (pressUserTypeCard k s) j =
          if s.selectedType = some j then false else cardLocal s j) ∧
      userTypeInv (pressUserTypeCard k s) ∧
      userTypeInv initUserTypeScreen := by
  decide

/-- Witness for C8: pressing the Lecturer card on the fresh screen highlights
it (toggle from false to true), while the Student card's highlight stays
false. -/
theorem userTypeCard_press_toggles_self_frames_siblings_witness :
    cardLocal (pressUserTypeCard .lecturer initUserTypeScreen) .lecturer = true ∧
    cardLocal (pressUserTypeCard .lecturer initUserTypeScreen) .student = false := by
  have h := userTypeCard_press_toggles_self_frames_siblings
    initUserTypeScreen .lecturer (by decide)
  refine ⟨by simpa using h.1, ?_⟩
  have hs := h.2.1 .student (by decide)
  simpa using hs

/-! ## Auth screen (OAuth buttons) — src/unnamed/part_005 `Page`, `onPress` -/

/-- `enum AuthType { Apple, Google }`. -/
inductive AuthType
  | Apple
  | Google
deriving DecidableEq, Repr

/-- Effects the auth screen's `onPress` performs. `scheduleTimeout ms b`
records `setTimeout(() => setIsLoading(b), ms)`. -/
inductive AuthEffect
  | setLoading (b : Bool)
  | replaceRoute (path : String)
  | scheduleTimeout (ms : Nat) (thenSetLoading : Bool)
deriving DecidableEq, Repr

/-- The auth screen's `onPress(authType)` (part_005 lines 96-111): for
Google, `setIsLoading(true)`, `router.replace('/usertype')`, then
`setTimeout(() => setIsLoading(false), 2000)`; the Apple branch is
identical. -/
def authOnPress (authType : AuthType) : List AuthEffect :=
  match authType with
  | .Google =>
      [.setLoading true, .replaceRoute "/usertype", .scheduleTimeout 2000 false]
  | .Apple =>
      [.setLoading true, .replaceRoute "/usertype", .scheduleTimeout 2000 false]

/-! ## Claim C9 -/

/-- C9: for every press of either OAuth button the handler performs exactly
the same effect sequence — set the loading flag, replace the route with
'/usertype', and schedule the loading reset after a fixed 2000 ms — so it
always navigates, always resets loading, emits no error or cancellation
effect, and nothing distinguishes success from failure (or Google from
Apple). -/
theorem authOnPress_always_succeeds :
    ∀ t : AuthType,
      authOnPress t =
        [.setLoading true, .replaceRoute "/usertype", .scheduleTimeout 2000 false] ∧
      authOnPress t = authOnPress .Google := by
  intro t
  cases t <;> exact ⟨rfl, rfl⟩

/-! ## Reusable loading button — src/components/CustomButton.tsx -/

/-- Possible outcomes of the operation wrapped by the button's `onPress`.
`handlePress` never inspects the wrapped call (it is fire-and-forget), so
the outcome is a parameter the embedded transition cannot read. -/
inductive WrappedOutcome
  | success
  | failure
  | pending
deriving DecidableEq, Repr

/-- `CustomButton.handlePress` (CustomButton.tsx lines 20-23): the new
internal `isLoading` flag after a press is `!isLoading`, whatever the wrapped
operation's outcome. -/
def customButtonPress (outcome : WrappedOutcome) (isLoading : Bool) : Bool :=
  !isLoading

/-- `CustomButton`'s `useEffect([loading])` (lines 16-18): when the `loading`
prop changes the internal flag is set to the prop's value. -/
def customButtonSync (loading isLoading : Bool) : Bool :=
  loading

/-! ## Claim C10 -/

/-- C10: every press of `CustomButton` negates its internal `isLoading` flag
unconditionally — the result is independent of whether the wrapped operation
succeeds, fails, or is still pending — and whenever the `loading` prop
changes the internal flag is re-synchronized to the prop's value. -/
theorem customButton_press_negates_and_prop_syncs :
    ∀ (o o2 : WrappedOutcome) (s loading : Bool),
      customButtonPress o s = !s ∧
      customButtonPress o s = customButtonPress o2 s ∧
      customButtonSync loading s = loading := by
  intro o o2 s loading
  exact ⟨rfl, rfl, rfl⟩
